import Mathlib

/-!
Verification of the window-discovery cascade and screenshot manager of the
screenshotmcp repository.  The JavaScript source is shallowly embedded:
string-processing helpers mirror the JavaScript string methods used by the
code (`split`, `trim`, `startsWith`, `includes`, `parseInt`), the four
window-enumeration strategies and the cascade controller mirror
`windowDetection.js`, and the capture / history / resource layer mirrors
`screenshotManager.js`, `captureTools.js` and `screenshotResources.js`.
External processes and the filesystem are modelled by explicit environment
records; every definition is computable so concrete runs can be decided.
-/

/-! ## JavaScript string primitives, over explicit character lists -/

/-- Characters of JS `trim()`: drop whitespace from both ends. -/
def trimChars (cs : List Char) : List Char :=
  ((cs.dropWhile Char.isWhitespace).reverse.dropWhile Char.isWhitespace).reverse

/-- JS `s.trim()`. -/
def jsTrim (s : String) : String := String.mk (trimChars s.data)

/-- JS `s.split(sep)` for a one-character separator: splits at every
occurrence and keeps empty fields; `"".split(sep)` is `[""]`. -/
def splitCharList (sep : Char) : List Char → List (List Char)
  | [] => [[]]
  | c :: cs =>
      if c = sep then [] :: splitCharList sep cs
      else
        match splitCharList sep cs with
        | [] => [[c]]
        | r :: rs => (c :: r) :: rs

/-- JS `s.split(sep)` for a one-character separator, on strings. -/
def jsSplitChar (s : String) (sep : Char) : List String :=
  (splitCharList sep s.data).map String.mk

/-- JS `s.split(', ')`: left-to-right non-overlapping split on the
two-character separator used by the process-enumeration fallback. -/
def splitCommaSpaceList : List Char → List (List Char)
  | [] => [[]]
  | [c] => [[c]]
  | c :: c2 :: cs =>
      if c = ',' ∧ c2 = ' ' then [] :: splitCommaSpaceList cs
      else
        match splitCommaSpaceList (c2 :: cs) with
        | [] => [[c]]
        | r :: rs => (c :: r) :: rs

/-- JS `s.startsWith(pre)`. -/
def jsStartsWith (s pre : String) : Bool := pre.data.isPrefixOf s.data

/-- Containment of a character sequence, scanning left to right. -/
def containsSeq (needle : List Char) : List Char → Bool
  | [] => needle.isPrefixOf []
  | c :: t => needle.isPrefixOf (c :: t) || containsSeq needle t

/-- JS `s.includes(sub)`: substring containment. -/
def jsIncludes (s sub : String) : Bool := containsSeq sub.data s.data

/-- Maximal leading run of decimal digits. -/
def digitsPrefix : List Char → List Char
  | [] => []
  | c :: cs => if c.isDigit then c :: digitsPrefix cs else []

/-- Value of a list of decimal digit characters. -/
def digitsToNat (ds : List Char) : Nat :=
  ds.foldl (fun n c => 10 * n + (c.toNat - 48)) 0

/-- JS `parseInt(s, 10)`: skip leading whitespace, optional sign, then the
maximal digit prefix; `NaN` (no digits at all) is modelled as `none`. -/
def jsParseInt (s : String) : Option Int :=
  match (s.data).dropWhile Char.isWhitespace with
  | '-' :: rest =>
      let d := digitsPrefix rest
      if d = [] then none else some (-(digitsToNat d : Int))
  | '+' :: rest =>
      let d := digitsPrefix rest
      if d = [] then none else some (digitsToNat d : Int)
  | cs =>
      let d := digitsPrefix cs
      if d = [] then none else some (digitsToNat d : Int)

/-- Decimal rendering of a natural number (JS number-to-string for the
non-negative integers used in template literals). -/
def natReprAux : Nat → Nat → List Char
  | 0, _ => []
  | fuel + 1, n =>
      if n < 10 then [Char.ofNat (48 + n)]
      else natReprAux fuel (n / 10) ++ [Char.ofNat (48 + n % 10)]

/-- Decimal rendering of a natural number. -/
def natRepr (n : Nat) : String := String.mk (natReprAux (n + 1) n)

/-- Decimal rendering of an integer (JS number-to-string for integers). -/
def intRepr (i : Int) : String :=
  if i < 0 then "-" ++ natRepr i.natAbs else natRepr i.toNat

/-! ## Window records (`windowDetection.js`)

JavaScript objects with possibly-`undefined` fields are modelled with
`Option`: the Swift-output parser destructures `line.split('|')` into seven
variables, so fields past the end of the split are `undefined` (`none`),
and `parseInt` of such a field is `NaN` (`none` inside the bounds). -/

/-- The `bounds` object of a window record; `none` components model `NaN`
coordinates produced by `parseInt` on missing fields. -/
structure JsBounds where
  x : Option Int
  y : Option Int
  width : Option Int
  height : Option Int
deriving DecidableEq, Repr

/-- A window record as produced by the four strategies: `id`, `title`,
`owner.name` and `bounds`; `none` models a JS `undefined` field (the
fallback sentinel record carries no `bounds` key at all). -/
structure WindowRecord where
  id : String
  title : Option String
  ownerName : Option String
  bounds : Option JsBounds
deriving DecidableEq, Repr

/-- Outcome of one external-process invocation (`exec` callback): either the
process errored, or it completed with captured `stdout` and `stderr`. -/
inductive ExecResult where
  | failed
  | ok (stdout : String) (stderr : String)
deriving DecidableEq, Repr

/-- One line of the Swift helper's stdout
(`const [id, appName, title, x, y, width, height] = line.split('|')`):
blank lines are skipped, every other line produces a record. -/
def parseSwiftLine (line : String) : Option WindowRecord :=
  if jsTrim line = "" then none
  else
    let ps := jsSplitChar line '|'
    some
      { id := (ps.get? 0).getD ""
        title := ps.get? 2
        ownerName := ps.get? 1
        bounds := some
          { x := (ps.get? 3).bind jsParseInt
            y := (ps.get? 4).bind jsParseInt
            width := (ps.get? 5).bind jsParseInt
            height := (ps.get? 6).bind jsParseInt } }

/-- Parser of the Swift helper's stdout (`getWindowListSwift`). -/
def parseSwiftOutput (stdout : String) : List WindowRecord :=
  (jsSplitChar stdout '\n').filterMap parseSwiftLine

/-- Strategy 1: `getWindowListSwift` — an `exec` error resolves to `[]`,
otherwise stdout is parsed line by line. -/
def getWindowListSwift (res : ExecResult) : List WindowRecord :=
  match res with
  | .failed => []
  | .ok stdout _ => parseSwiftOutput stdout

/-- One line of the AppleScript output
(`appName & "|" & windowName & "|" & windowID`): lines with fewer than
three pipe-delimited fields are dropped. -/
def parseAppleScriptLine (line : String) : Option WindowRecord :=
  if jsTrim line = "" then none
  else
    match jsSplitChar line '|' with
    | appName :: windowTitle :: windowId :: _ =>
        some
          { id := jsTrim windowId
            title := some (jsTrim windowTitle)
            ownerName := some (jsTrim appName)
            bounds := some { x := some 0, y := some 0, width := some 0, height := some 0 } }
    | _ => none

/-- Per-line AppleScript parsing over a list of lines. -/
def parseAppleScriptLines (lines : List String) : List WindowRecord :=
  lines.filterMap parseAppleScriptLine

/-- Parser of the AppleScript stdout (`getWindowListAppleScript`): the
trimmed output is rejected wholesale when it starts with `ERROR:`. -/
def parseAppleScriptOutput (stdout : String) : List WindowRecord :=
  let output := jsTrim stdout
  if jsStartsWith output "ERROR:" then []
  else parseAppleScriptLines (jsSplitChar output '\n')

/-- Strategy 2: `getWindowListAppleScript`. -/
def getWindowListAppleScript (res : ExecResult) : List WindowRecord :=
  match res with
  | .failed => []
  | .ok stdout _ => parseAppleScriptOutput stdout

/-- Leftmost match of the global regex `/(\d+)\. (.+)/` inside one line
(no newline characters): a maximal digit run followed by `". "` and a
non-empty remainder of the line.  Positions strictly inside a digit run
fail exactly when the run's own position fails, so advancing one character
at a time is faithful to the regex engine's scan. -/
def scanScreencaptureLine : List Char → Option (List Char × List Char)
  | [] => none
  | c :: cs =>
      if c.isDigit then
        match (c :: cs).drop (digitsPrefix (c :: cs)).length with
        | '.' :: ' ' :: tail =>
            if tail.isEmpty then scanScreencaptureLine cs
            else some (digitsPrefix (c :: cs), tail)
        | _ => scanScreencaptureLine cs
      else scanScreencaptureLine cs

/-- One line of the `screencapture -lc` diagnostic stream; the owner name is
guessed as `title.split(' ')[0]`. -/
def parseScreencaptureLine (line : String) : Option WindowRecord :=
  (scanScreencaptureLine line.data).map fun m =>
    let title := String.mk m.2
    { id := String.mk m.1
      title := some title
      ownerName := some ((jsSplitChar title ' ').headD "")
      bounds := some { x := some 0, y := some 0, width := some 0, height := some 0 } }

/-- Parser of the `screencapture` stderr: the global regex never matches
across lines and a match always consumes the rest of its line, so the scan
is equivalent to taking the first match of each line. -/
def parseScreencaptureOutput (stderr : String) : List WindowRecord :=
  (jsSplitChar stderr '\n').filterMap parseScreencaptureLine

/-- Strategy 3: `getWindowListScreencapture` (parses `stderr`). -/
def getWindowListScreencapture (res : ExecResult) : List WindowRecord :=
  match res with
  | .failed => []
  | .ok _ stderr => parseScreencaptureOutput stderr

/-- The dummy record returned by `getApplicationsAsFallback` when even the
process-enumeration `osascript` call errors; it carries no `bounds` key. -/
def sentinelRecord : WindowRecord :=
  { id := "dummy_0"
    title := some "Screenshot MCP (Permission issue)"
    ownerName := some "System"
    bounds := none }

/-- Parser of the process-enumeration stdout: `stdout.trim().split(', ')`,
one pseudo-window per non-empty application name, ids tagged `app_<index>`
with the index taken in the unfiltered array. -/
def parseApplicationsOutput (stdout : String) : List WindowRecord :=
  let apps := (splitCommaSpaceList (jsTrim stdout).data).map String.mk
  apps.enum.filterMap fun p =>
    let appName := jsTrim p.2
    if appName = "" then none
    else
      some
        { id := "app_" ++ natRepr p.1
          title := some (appName ++ " Window")
          ownerName := some appName
          bounds := some { x := some 0, y := some 0, width := some 0, height := some 0 } }

/-- Strategy 4: `getApplicationsAsFallback` — an `exec` error resolves to
the single sentinel record, success parses the application list. -/
def getApplicationsAsFallback (res : ExecResult) : List WindowRecord :=
  match res with
  | .failed => [sentinelRecord]
  | .ok stdout _ => parseApplicationsOutput stdout

/-! ## The cascade controller (`getWindowList`) -/

/-- The raw outcomes of the four external invocations a single
`getWindowList` call can make, in strategy order. -/
structure OsEnv where
  swiftExec : ExecResult
  appleScriptExec : ExecResult
  screencaptureExec : ExecResult
  processListExec : ExecResult
deriving DecidableEq, Repr

/-- The cascade `getWindowList` with an explicit trace of which strategies were invoked:
each strategy is tried once, in order, and the first non-empty result
(`length > 0`) is returned without consulting later strategies. -/
def getWindowListWithTrace (env : OsEnv) : List WindowRecord × List Nat :=
  let s1 := getWindowListSwift env.swiftExec
  if s1.length > 0 then (s1, [1])
  else
    let s2 := getWindowListAppleScript env.appleScriptExec
    if s2.length > 0 then (s2, [1, 2])
    else
      let s3 := getWindowListScreencapture env.screencaptureExec
      if s3.length > 0 then (s3, [1, 2, 3])
      else (getApplicationsAsFallback env.processListExec, [1, 2, 3, 4])

/-- The window-discovery cascade `getWindowList` of `windowDetection.js`. -/
def getWindowList (env : OsEnv) : List WindowRecord :=
  (getWindowListWithTrace env).1

/-- The output of strategy `k` (1-based, as in the spec) in isolation. -/
def strategyOutput (k : Nat) (env : OsEnv) : List WindowRecord :=
  match k with
  | 1 => getWindowListSwift env.swiftExec
  | 2 => getWindowListAppleScript env.appleScriptExec
  | 3 => getWindowListScreencapture env.screencaptureExec
  | 4 => getApplicationsAsFallback env.processListExec
  | _ => []

/-! ## Screenshot manager (`screenshotManager.js`)

Image buffers are abstracted as an inductive: a raw capture (with its pixel
dimensions and an opaque tag) or a JPEG re-encoding of another buffer;
`sharp(...).jpeg({quality}).toBuffer()` becomes the `jpegOf` constructor and
`sharp(buf).metadata()` reads the dimensions through re-encodings. -/

/-- An image buffer. -/
inductive Buffer where
  | raw (width height : Nat) (tag : Nat)
  | jpegOf (src : Buffer) (quality : Nat)
deriving DecidableEq, Repr

/-- Whether the buffer's outermost encoding step is the JPEG encoder. -/
def Buffer.isJpegEncoded : Buffer → Bool
  | .jpegOf _ _ => true
  | .raw _ _ _ => false

/-- Width reported by `sharp(buf).metadata()` (JPEG re-encoding preserves dimensions). -/
def bufferWidth : Buffer → Nat
  | .raw w _ _ => w
  | .jpegOf b _ => bufferWidth b

/-- Height reported by `sharp(buf).metadata()`. -/
def bufferHeight : Buffer → Nat
  | .raw _ h _ => h
  | .jpegOf b _ => bufferHeight b

/-- The `screenshotData` object built by every capture function and stored
in the history; absent keys (`windowTitle` on non-window captures, `region`
on non-region captures, `filePath` when not saving) are `none`. -/
structure ScreenshotData where
  id : String
  timestamp : String
  type : String
  windowTitle : Option String
  windowId : Option String
  region : Option (Int × Int × Int × Int)
  format : String
  quality : Nat
  width : Int
  height : Int
  filePath : Option String
  buffer : Buffer
deriving DecidableEq, Repr

/-- The `addToHistory` function: `shift()` the oldest entry once 100 are held, then
`push` the new one. -/
def addToHistory (s : ScreenshotData) (hist : List ScreenshotData) : List ScreenshotData :=
  (if hist.length ≥ 100 then hist.tail else hist) ++ [s]

/-- The `getScreenshotById` function: first entry (oldest first) whose `id` matches. -/
def getScreenshotById (id : String) (hist : List ScreenshotData) : Option ScreenshotData :=
  hist.find? (fun s => s.id == id)

/-- The history after a sequence of captures, starting from the empty
module-level `screenshotHistory` array. -/
def runCaptures (shots : List ScreenshotData) : List ScreenshotData :=
  shots.foldl (fun h s => addToHistory s h) []

/-- Image processing step `if (format === 'jpg' || quality < 100) sharp(...).jpeg(...)`. -/
def processBuffer (format : String) (quality : Nat) (buf : Buffer) : Buffer :=
  if format = "jpg" ∨ quality < 100 then .jpegOf buf quality else buf

/-- The commands the capture functions spawn. -/
inductive CaptureCmd where
  | screenDesktop
  | screencaptureFull (dest : String)
  | screencaptureWindow (windowId : String) (dest : String)
  | screencaptureRegion (x y w h : Int) (dest : String)
deriving DecidableEq, Repr

/-- Observable side effects of a capture call (the discovery phase's own
process spawns are outside this model; history changes are tracked
separately). -/
inductive Effect where
  | spawn (cmd : CaptureCmd)
  | fileWrite (path : String)
  | fileRemove (path : String)
deriving DecidableEq, Repr

/-- The ambient inputs of one capture call: `Date.now()`, the ISO
timestamp, the id from `generateId()`, and the outcome of spawning the
capture tool and reading back the temporary file (`none` models a throwing
`execSync`/`readFile`). -/
structure CaptureEnv where
  nowMs : Nat
  timestamp : String
  freshId : String
  captureResult : Option Buffer
  captureErrMsg : String
deriving DecidableEq, Repr

/-- The screenshots directory (`SCREENSHOT_DIR`). -/
def screenshotDir : String := "screenshots"

/-- Temporary capture file `path.join(SCREENSHOT_DIR, "temp_" + Date.now() + ".png")`. -/
def tempFilePath (env : CaptureEnv) : String :=
  screenshotDir ++ "/temp_" ++ natRepr env.nowMs ++ ".png"

/-- Filesystem-safe timestamp `timestamp.replace(/[:.]/g, '-')`. -/
def sanitizeTimestamp (ts : String) : String :=
  String.mk (ts.data.map fun c => if c = ':' ∨ c = '.' then '-' else c)

/-- Filesystem-safe title `windowTitle.replace(/[^a-zA-Z0-9]/g, '_')`. -/
def sanitizeTitle (t : String) : String :=
  String.mk (t.data.map fun c => if c.isAlphanum then c else '_')

/-- The response shape of the capture tool handlers: `{success:true,
screenshot}` or `{success:false, error}`. -/
inductive CaptureResult where
  | success (data : ScreenshotData)
  | failure (error : String)
deriving DecidableEq, Repr

/-- Result, capture-phase side effects, and post-call history of one
capture call. -/
structure CaptureOutcome where
  result : CaptureResult
  effects : List Effect
  history : List ScreenshotData
deriving DecidableEq, Repr

/-- Target lookup `windows.find(win => win.title && win.title.includes(windowTitle))`:
the title must be truthy (present and non-empty) and contain the requested
title as a substring. -/
def findTargetWindow (windows : List WindowRecord) (windowTitle : String) :
    Option WindowRecord :=
  windows.find? fun w =>
    match w.title with
    | none => false
    | some t => (t != "") && jsIncludes t windowTitle

/-- Filename `window_<sanitized title>_<sanitized timestamp>.<format>`. -/
def windowFilename (windowTitle format timestamp : String) : String :=
  "window_" ++ sanitizeTitle windowTitle ++ "_" ++ sanitizeTimestamp timestamp ++ "." ++ format

/-- Filename `fullscreen_<sanitized timestamp>.<format>`. -/
def fullscreenFilename (format timestamp : String) : String :=
  "fullscreen_" ++ sanitizeTimestamp timestamp ++ "." ++ format

/-- Filename `region_<x>_<y>_<width>_<height>_<sanitized timestamp>.<format>`. -/
def regionFilename (x y w h : Int) (format timestamp : String) : String :=
  "region_" ++ intRepr x ++ "_" ++ intRepr y ++ "_" ++ intRepr w ++ "_" ++ intRepr h ++
    "_" ++ sanitizeTimestamp timestamp ++ "." ++ format

/-- Model of `captureWindow` (macOS path) composed with its tool handler: missing
title and no-match errors are wrapped by the outer catch
(`Failed to capture window: ...`), screencapture errors also by the inner
catch; on success the window is addressed by the `app_` prefix convention,
the buffer is processed, optionally saved, and the data appended to the
history. -/
def captureWindowModel (windowTitle format : String) (quality : Nat) (saveToFile : Bool)
    (windows : List WindowRecord) (env : CaptureEnv) (hist : List ScreenshotData) :
    CaptureOutcome :=
  if windowTitle = "" then
    { result := .failure "Window title is required", effects := [], history := hist }
  else
    match findTargetWindow windows windowTitle with
    | none =>
        { result := .failure ("Failed to capture window: Window with title \"" ++
            windowTitle ++ "\" not found")
          effects := []
          history := hist }
    | some target =>
        let tempPath := tempFilePath env
        let cmd : CaptureCmd :=
          if jsStartsWith target.id "app_" then .screencaptureFull tempPath
          else .screencaptureWindow target.id tempPath
        match env.captureResult with
        | none =>
            { result := .failure
                ("Failed to capture window: Failed to capture window using screencapture: " ++
                  env.captureErrMsg)
              effects := [.spawn cmd]
              history := hist }
        | some buf =>
            let processed := processBuffer format quality buf
            let filePath :=
              if saveToFile then
                some (screenshotDir ++ "/" ++ windowFilename windowTitle format env.timestamp)
              else none
            let data : ScreenshotData :=
              { id := env.freshId
                timestamp := env.timestamp
                type := "window"
                windowTitle := some windowTitle
                windowId := some target.id
                region := none
                format := format
                quality := quality
                width := (bufferWidth processed : Int)
                height := (bufferHeight processed : Int)
                filePath := filePath
                buffer := processed }
            { result := .success data
              effects := [.spawn cmd] ++
                (if saveToFile then [.fileWrite (filePath.getD "")] else []) ++
                [.fileRemove tempPath]
              history := addToHistory data hist }

/-- Model of `captureFullScreen` composed with its tool handler: capture via the
`screenshot-desktop` library, process, optionally save, append to history. -/
def captureFullScreenModel (format : String) (quality : Nat) (saveToFile : Bool)
    (env : CaptureEnv) (hist : List ScreenshotData) : CaptureOutcome :=
  match env.captureResult with
  | none =>
      { result := .failure ("Failed to capture full screen: " ++ env.captureErrMsg)
        effects := [.spawn .screenDesktop]
        history := hist }
  | some buf =>
      let processed := processBuffer format quality buf
      let filePath :=
        if saveToFile then
          some (screenshotDir ++ "/" ++ fullscreenFilename format env.timestamp)
        else none
      let data : ScreenshotData :=
        { id := env.freshId
          timestamp := env.timestamp
          type := "fullscreen"
          windowTitle := none
          windowId := none
          region := none
          format := format
          quality := quality
          width := (bufferWidth processed : Int)
          height := (bufferHeight processed : Int)
          filePath := filePath
          buffer := processed }
      { result := .success data
        effects := [.spawn .screenDesktop] ++
          (if saveToFile then [.fileWrite (filePath.getD "")] else [])
        history := addToHistory data hist }

/-- Model of `captureRegion` (macOS path) composed with its tool handler: the
validation `x === undefined || y === undefined || width === undefined ||
height === undefined` throws before the `try`, so its message reaches the
handler unwrapped; on the capture path the stored `width`/`height` are the
requested ones. -/
def captureRegionModel (x y width height : Option Int) (format : String) (quality : Nat)
    (saveToFile : Bool) (env : CaptureEnv) (hist : List ScreenshotData) : CaptureOutcome :=
  match x, y, width, height with
  | some xv, some yv, some wv, some hv =>
      let tempPath := tempFilePath env
      let cmd : CaptureCmd := .screencaptureRegion xv yv wv hv tempPath
      match env.captureResult with
      | none =>
          { result := .failure
              ("Failed to capture region: Failed to capture region using screencapture: " ++
                env.captureErrMsg)
            effects := [.spawn cmd]
            history := hist }
      | some buf =>
          let processed := processBuffer format quality buf
          let filePath :=
            if saveToFile then
              some (screenshotDir ++ "/" ++ regionFilename xv yv wv hv format env.timestamp)
            else none
          let data : ScreenshotData :=
            { id := env.freshId
              timestamp := env.timestamp
              type := "region"
              windowTitle := none
              windowId := none
              region := some (xv, yv, wv, hv)
              format := format
              quality := quality
              width := wv
              height := hv
              filePath := filePath
              buffer := processed }
          { result := .success data
            effects := [.spawn cmd] ++
              (if saveToFile then [.fileWrite (filePath.getD "")] else []) ++
              [.fileRemove tempPath]
            history := addToHistory data hist }
  | _, _, _, _ =>
      { result := .failure "Region coordinates (x, y, width, height) are required"
        effects := []
        history := hist }

/-! ## Screenshot resources (`screenshotResources.js`) -/

/-- The response shape of the resource handlers. -/
inductive ResourceResult where
  | success (data : ScreenshotData)
  | failure (error : String)
deriving DecidableEq, Repr

/-- The `screenshot://history/{id}` resource handler (`screenshotById`):
requires a truthy id, looks the id up in the history, and fails when the
backing file was removed from disk out of band. -/
def screenshotByIdResource (id : String) (hist : List ScreenshotData)
    (fileExists : String → Bool) : ResourceResult :=
  if id = "" then .failure "Screenshot ID is required"
  else
    match getScreenshotById id hist with
    | none => .failure ("Screenshot with ID \"" ++ id ++ "\" not found")
    | some s =>
        match s.filePath with
        | some p =>
            if fileExists p then .success s
            else .failure "Screenshot file no longer exists"
        | none => .success s

/-! ## Auxiliary definitions used by the verification statements -/

/-- Whether a window record's (present) title contains `sub` as a
substring, the condition `capture_window` matches targets by. -/
def titleContains (w : WindowRecord) (sub : String) : Bool :=
  match w.title with
  | none => false
  | some t => jsIncludes t sub

/-- A concrete environment for exercising the cascade: strategy 1 empty,
strategy 2 produces one window, strategies 3 and 4 never reached. -/
def c2Env : OsEnv :=
  { swiftExec := (.ok "" "")
    appleScriptExec := (.ok "Safari|My Page|1234" "")
    screencaptureExec := .failed
    processListExec := .failed }

/-- A concrete capture environment with a successful 640x480 capture. -/
def testCaptureEnv : CaptureEnv :=
  { nowMs := 1
    timestamp := "2024-01-02T03:04:05.678Z"
    freshId := "ss_1"
    captureResult := some (.raw 640 480 0)
    captureErrMsg := "" }

/-- A concrete screenshot record with a distinct id per index, for
exercising the history ring. -/
def mkShot (i : Nat) : ScreenshotData :=
  { id := natRepr i
    timestamp := "T"
    type := "fullscreen"
    windowTitle := none
    windowId := none
    region := none
    format := "png"
    quality := 100
    width := 1
    height := 1
    filePath := none
    buffer := (.raw 1 1 0) }

/-- The 100 most recent of 101 concrete screenshots. -/
def shotsTail : List ScreenshotData := ((List.range 101).map mkShot).tail

/-! ## General lemmas about the embedded operations -/

/-- String concatenation is associative. -/
theorem string_append_assoc (a b c : String) : a ++ b ++ c = a ++ (b ++ c) := by
  cases a with
  | mk la =>
      cases b with
      | mk lb =>
          cases c with
          | mk lc =>
              show String.mk (la ++ lb ++ lc) = String.mk (la ++ (lb ++ lc))
              rw [List.append_assoc]

/-- Reassociating a directory-plus-filename concatenation exposes the
".png" extension as a suffix. -/
theorem append_png_ext (x y : String) :
    x ++ ((y ++ ".") ++ "png") = (x ++ y) ++ ".png" := by
  rw [string_append_assoc y "." "png", ← string_append_assoc x y ("." ++ "png")]
  rfl

/-- If the first list is rejected wholesale by the predicate, search
continues in the second. -/
theorem find_skip_left {α : Type} (p : α → Bool) (l₁ l₂ : List α)
    (h : ∀ x ∈ l₁, p x = false) : (l₁ ++ l₂).find? p = l₂.find? p := by
  induction l₁ with
  | nil => rfl
  | cons a t ih =>
      rw [List.cons_append, List.find?_cons, h a (List.mem_cons_self a t)]
      exact ih fun x hx => h x (List.mem_cons_of_mem a hx)

/-- Looking up an id in a history with pairwise-distinct ids finds the
holder of that id. -/
theorem find_by_id_of_nodup (l : List ScreenshotData)
    (hnd : (l.map ScreenshotData.id).Nodup) (s : ScreenshotData) (hs : s ∈ l) :
    l.find? (fun t => t.id == s.id) = some s := by
  induction l with
  | nil => cases hs
  | cons a t ih =>
      rw [List.map_cons, List.nodup_cons] at hnd
      rcases List.mem_cons.mp hs with h | h
      · subst h
        rw [List.find?_cons_of_pos _ (by simp)]
      · have hne : a.id ≠ s.id := by
          intro he
          exact hnd.1 (he ▸ List.mem_map_of_mem ScreenshotData.id h)
        rw [List.find?_cons_of_neg _ (by simp [hne])]
        exact ih hnd.2 h

/-- One append keeps the ring at no more than 100 entries. -/
theorem addToHistory_length_le (s : ScreenshotData) (hist : List ScreenshotData)
    (hh : hist.length ≤ 100) : (addToHistory s hist).length ≤ 100 := by
  unfold addToHistory
  split
  · simp only [List.length_append, List.length_tail, List.length_cons, List.length_nil]
    omega
  · simp only [List.length_append, List.length_cons, List.length_nil]
    omega

/-- The history ring never exceeds 100 entries, whatever the capture
sequence. -/
theorem runCaptures_length_le (shots : List ScreenshotData) :
    (runCaptures shots).length ≤ 100 := by
  have general : ∀ (l acc : List ScreenshotData), acc.length ≤ 100 →
      (l.foldl (fun h s => addToHistory s h) acc).length ≤ 100 := by
    intro l
    induction l with
    | nil => intro acc h; exact h
    | cons a t ih => intro acc h; exact ih _ (addToHistory_length_le a acc h)
  exact general shots [] (by simp)

/-- Up to 100 captures, the ring holds exactly the captures in order. -/
theorem runCaptures_fill (shots : List ScreenshotData) (h : shots.length ≤ 100) :
    runCaptures shots = shots := by
  have general : ∀ (l acc : List ScreenshotData), acc.length + l.length ≤ 100 →
      l.foldl (fun h s => addToHistory s h) acc = acc ++ l := by
    intro l
    induction l with
    | nil => intro acc _; simp
    | cons a t ih =>
        intro acc hlen
        have hacc : ¬ acc.length ≥ 100 := by
          simp only [List.length_cons] at hlen
          omega
        have hstep : addToHistory a acc = acc ++ [a] := by
          unfold addToHistory
          rw [if_neg hacc]
        show List.foldl (fun h s => addToHistory s h) (addToHistory a acc) t = acc ++ a :: t
        rw [hstep, ih (acc ++ [a])
          (by simp only [List.length_append, List.length_cons, List.length_nil] at hlen ⊢; omega)]
        simp
  simpa using general shots [] (by simpa using h)

/-! ## Claim theorems -/

/-- C1 (counterexample): the claim that when all four strategies yield
empty sequences the cascade returns exactly one sentinel record is false:
in an environment where every external call succeeds with empty output all
four strategies yield `[]`, and `getWindowList` returns the empty list,
not the sentinel singleton. -/
theorem c1_counterexample :
    strategyOutput 1 { swiftExec := (.ok "" ""), appleScriptExec := (.ok "" ""),
                       screencaptureExec := (.ok "" ""), processListExec := (.ok "" "") } = [] ∧
    strategyOutput 2 { swiftExec := (.ok "" ""), appleScriptExec := (.ok "" ""),
                       screencaptureExec := (.ok "" ""), processListExec := (.ok "" "") } = [] ∧
    strategyOutput 3 { swiftExec := (.ok "" ""), appleScriptExec := (.ok "" ""),
                       screencaptureExec := (.ok "" ""), processListExec := (.ok "" "") } = [] ∧
    strategyOutput 4 { swiftExec := (.ok "" ""), appleScriptExec := (.ok "" ""),
                       screencaptureExec := (.ok "" ""), processListExec := (.ok "" "") } = [] ∧
    getWindowList { swiftExec := (.ok "" ""), appleScriptExec := (.ok "" ""),
                    screencaptureExec := (.ok "" ""), processListExec := (.ok "" "") } = [] ∧
    getWindowList { swiftExec := (.ok "" ""), appleScriptExec := (.ok "" ""),
                    screencaptureExec := (.ok "" ""), processListExec := (.ok "" "") } ≠
      [sentinelRecord] := by
  decide

/-- C1 (amended): when strategies 1-3 yield empty sequences the cascade
returns strategy 4's output verbatim; that output is exactly the one
sentinel record when strategy 4's process invocation fails, but when
strategy 4 also yields an empty sequence the cascade returns the empty
list, so discovery does not always succeed with a sentinel. -/
theorem c1_cascade_fallback (env : OsEnv)
    (h1 : strategyOutput 1 env = []) (h2 : strategyOutput 2 env = [])
    (h3 : strategyOutput 3 env = []) :
    getWindowList env = getApplicationsAsFallback env.processListExec ∧
    (env.processListExec = ExecResult.failed → getWindowList env = [sentinelRecord]) ∧
    (strategyOutput 4 env = [] → getWindowList env = []) := by
  have h1' : getWindowListSwift env.swiftExec = [] := h1
  have h2' : getWindowListAppleScript env.appleScriptExec = [] := h2
  have h3' : getWindowListScreencapture env.screencaptureExec = [] := h3
  have hmain : getWindowList env = getApplicationsAsFallback env.processListExec := by
    unfold getWindowList getWindowListWithTrace
    simp [h1', h2', h3']
  refine ⟨hmain, ?_, ?_⟩
  · intro hf
    rw [hmain, hf]
    rfl
  · intro h4
    have h4' : getApplicationsAsFallback env.processListExec = [] := h4
    rw [hmain, h4']

/-- C1 (witness): in an environment where every external call fails the
first three strategies are empty and the cascade returns exactly the
sentinel record. -/
theorem c1_cascade_fallback_witness :
    getWindowList { swiftExec := ExecResult.failed, appleScriptExec := ExecResult.failed,
                    screencaptureExec := ExecResult.failed, processListExec := ExecResult.failed } =
      [sentinelRecord] :=
  (c1_cascade_fallback
    { swiftExec := ExecResult.failed, appleScriptExec := ExecResult.failed,
      screencaptureExec := ExecResult.failed, processListExec := ExecResult.failed }
    (by decide) (by decide) (by decide)).2.1 (by decide)

/-- C2: for every environment and every k with strategies 1..k-1 empty and
strategy k non-empty, the cascade's output equals strategy k's output
verbatim and no strategy after k appears in the invocation trace. -/
theorem c2_first_nonempty_strategy_wins (env : OsEnv) (k : Nat) (hk1 : 1 ≤ k) (hk4 : k ≤ 4)
    (hprev : ∀ j, 1 ≤ j → j < k → strategyOutput j env = [])
    (hne : strategyOutput k env ≠ []) :
    getWindowList env = strategyOutput k env ∧
    (∀ j, k < j → j ∉ (getWindowListWithTrace env).2) := by
  interval_cases k
  · have hlen : 0 < (getWindowListSwift env.swiftExec).length :=
      List.length_pos.mpr hne
    constructor
    · unfold getWindowList getWindowListWithTrace
      simp only [gt_iff_lt, hlen, if_true]
      rfl
    · intro j hj
      unfold getWindowListWithTrace
      simp only [gt_iff_lt, hlen, if_true]
      intro hmem
      simp only [List.mem_singleton, List.mem_cons, List.not_mem_nil, or_false] at hmem
      omega
  · have h1 : getWindowListSwift env.swiftExec = [] := hprev 1 le_rfl (by omega)
    have hlen : 0 < (getWindowListAppleScript env.appleScriptExec).length :=
      List.length_pos.mpr hne
    constructor
    · unfold getWindowList getWindowListWithTrace
      simp only [h1, List.length_nil, gt_iff_lt, Nat.lt_irrefl, if_false, hlen, if_true]
      rfl
    · intro j hj
      unfold getWindowListWithTrace
      simp only [h1, List.length_nil, gt_iff_lt, Nat.lt_irrefl, if_false, hlen, if_true]
      intro hmem
      simp only [List.mem_singleton, List.mem_cons, List.not_mem_nil, or_false] at hmem
      omega
  · have h1 : getWindowListSwift env.swiftExec = [] := hprev 1 le_rfl (by omega)
    have h2 : getWindowListAppleScript env.appleScriptExec = [] := hprev 2 (by omega) (by omega)
    have hlen : 0 < (getWindowListScreencapture env.screencaptureExec).length :=
      List.length_pos.mpr hne
    constructor
    · unfold getWindowList getWindowListWithTrace
      simp only [h1, h2, List.length_nil, gt_iff_lt, Nat.lt_irrefl, if_false, hlen, if_true]
      rfl
    · intro j hj
      unfold getWindowListWithTrace
      simp only [h1, h2, List.length_nil, gt_iff_lt, Nat.lt_irrefl, if_false, hlen, if_true]
      intro hmem
      simp only [List.mem_singleton, List.mem_cons, List.not_mem_nil, or_false] at hmem
      omega
  · have h1 : getWindowListSwift env.swiftExec = [] := hprev 1 le_rfl (by omega)
    have h2 : getWindowListAppleScript env.appleScriptExec = [] := hprev 2 (by omega) (by omega)
    have h3 : getWindowListScreencapture env.screencaptureExec = [] := hprev 3 (by omega) (by omega)
    constructor
    · unfold getWindowList getWindowListWithTrace
      simp only [h1, h2, h3, List.length_nil, gt_iff_lt, Nat.lt_irrefl, if_false]
      rfl
    · intro j hj
      unfold getWindowListWithTrace
      simp only [h1, h2, h3, List.length_nil, gt_iff_lt, Nat.lt_irrefl, if_false]
      intro hmem
      simp only [List.mem_singleton, List.mem_cons, List.not_mem_nil, or_false] at hmem
      omega

/-- C2 (witness): with strategy 1 empty and strategy 2 producing one
window, the cascade returns strategy 2's output and strategy 5 (in
particular, nothing past 2) is not in the invocation trace. -/
theorem c2_first_nonempty_strategy_wins_witness :
    getWindowList c2Env = strategyOutput 2 c2Env ∧
    5 ∉ (getWindowListWithTrace c2Env).2 := by
  have h := c2_first_nonempty_strategy_wins c2Env 2 (by omega) (by omega)
    (by
      intro j hj1 hj2
      interval_cases j
      decide)
    (by decide)
  exact ⟨h.1, h.2 5 (by omega)⟩

/-- C3 (counterexample): parsing the line "1234|Safari|My Page" does not
yield the record claimed in the spec under either pipe-delimited parser:
the accessibility-scripting parser reads the fields in the order
app|title|id and so produces id "My Page", owner "1234", title "Safari";
the Swift-output parser produces the claimed id/owner/title but NaN
(undefined) bounds rather than a zeroed rectangle. -/
theorem c3_counterexample :
    parseAppleScriptOutput "1234|Safari|My Page" =
      [{ id := "My Page", title := some "Safari", ownerName := some "1234",
         bounds := some { x := some 0, y := some 0, width := some 0, height := some 0 } }] ∧
    parseAppleScriptOutput "1234|Safari|My Page" ≠
      [{ id := "1234", title := some "My Page", ownerName := some "Safari",
         bounds := some { x := some 0, y := some 0, width := some 0, height := some 0 } }] ∧
    parseSwiftOutput "1234|Safari|My Page" =
      [{ id := "1234", title := some "My Page", ownerName := some "Safari",
         bounds := some { x := none, y := none, width := none, height := none } }] ∧
    parseSwiftOutput "1234|Safari|My Page" ≠
      [{ id := "1234", title := some "My Page", ownerName := some "Safari",
         bounds := some { x := some 0, y := some 0, width := some 0, height := some 0 } }] := by
  decide

/-- C3 (amended): parsing the accessibility-scripting output line
"Safari|My Page|1234" (fields in the order the script emits them:
appName|windowName|windowID) yields exactly one record with id "1234",
owner name "Safari", title "My Page" and zeroed bounds. -/
theorem c3_pipe_line_parse :
    parseAppleScriptOutput "Safari|My Page|1234" =
      [{ id := "1234", title := some "My Page", ownerName := some "Safari",
         bounds := some { x := some 0, y := some 0, width := some 0, height := some 0 } }] := by
  decide

/-- C4 (counterexample): the claim fails for the Swift-output parser: a
malformed line ("garbage", with fewer than the seven expected fields) is
not dropped but yields a degraded record with an undefined title, so the
output differs from the parse without that line. -/
theorem c4_counterexample :
    parseSwiftOutput "garbage\n1|App|T|0|0|0|0" =
      [{ id := "garbage", title := none, ownerName := none,
         bounds := some { x := none, y := none, width := none, height := none } },
       { id := "1", title := some "T", ownerName := some "App",
         bounds := some { x := some 0, y := some 0, width := some 0, height := some 0 } }] ∧
    parseSwiftOutput "garbage\n1|App|T|0|0|0|0" ≠
      parseSwiftOutput "1|App|T|0|0|0|0" := by
  decide

/-- C4 (amended): for the accessibility-scripting parser every malformed
line (fewer than three pipe-delimited fields) is dropped individually —
parsing with the malformed line removed yields the same records, so every
well-formed line before and after it still produces its record; the
Swift-output parser instead emits a record for every non-blank line. -/
theorem c4_malformed_line_dropped (pre post : List String) (m : String)
    (hm : (jsSplitChar m '|').length < 3) :
    parseAppleScriptLines (pre ++ m :: post) = parseAppleScriptLines (pre ++ post) ∧
    (∀ l, jsTrim l ≠ "" → (parseSwiftLine l).isSome = true) := by
  constructor
  · have hnone : parseAppleScriptLine m = none := by
      unfold parseAppleScriptLine
      by_cases ht : jsTrim m = ""
      · rw [if_pos ht]
      · rw [if_neg ht]
        generalize hps : jsSplitChar m '|' = ps
        rw [hps] at hm
        rcases ps with _ | ⟨a, _ | ⟨b, _ | ⟨c, t⟩⟩⟩
        · rfl
        · rfl
        · rfl
        · simp only [List.length_cons] at hm
          omega
    unfold parseAppleScriptLines
    simp [List.filterMap_append, List.filterMap_cons, hnone]
  · intro l hl
    unfold parseSwiftLine
    rw [if_neg hl]
    rfl

/-- C4 (witness): dropping the concrete malformed line "junk" between two
well-formed lines leaves exactly the two well-formed lines' records, and
the Swift parser produces a record for the non-blank line "1|2". -/
theorem c4_malformed_line_dropped_witness :
    parseAppleScriptLines ["A|B|1", "junk", "C|D|2"] =
      parseAppleScriptLines ["A|B|1", "C|D|2"] ∧
    (parseSwiftLine "1|2").isSome = true :=
  ⟨(c4_malformed_line_dropped ["A|B|1"] ["C|D|2"] "junk" (by decide)).1,
   (c4_malformed_line_dropped ["A|B|1"] ["C|D|2"] "junk" (by decide)).2 "1|2" (by decide)⟩

/-- C5: whenever `capture_window` has selected a target window, the
dispatcher spawns a full-screen `screencapture` (no window-id flag) when
the target's id has the `app_` fallback prefix and a `-l <id>` capture
otherwise; and in either case, if the capture environment succeeds the
call succeeds (the `app_` branch never fails by itself). -/
theorem c5_appid_dispatch (windowTitle format : String) (quality : Nat) (saveToFile : Bool)
    (windows : List WindowRecord) (env : CaptureEnv) (hist : List ScreenshotData)
    (target : WindowRecord)
    (hne : windowTitle ≠ "")
    (hfind : findTargetWindow windows windowTitle = some target) :
    ((captureWindowModel windowTitle format quality saveToFile windows env hist).effects.head? =
      some (Effect.spawn (if jsStartsWith target.id "app_" then
          CaptureCmd.screencaptureFull (tempFilePath env)
        else
          CaptureCmd.screencaptureWindow target.id (tempFilePath env)))) ∧
    (∀ buf, env.captureResult = some buf →
      ∃ d, (captureWindowModel windowTitle format quality saveToFile windows env hist).result =
        CaptureResult.success d) := by
  constructor
  · unfold captureWindowModel
    rw [if_neg hne, hfind]
    cases hcr : env.captureResult with
    | none => rfl
    | some buf => rfl
  · intro buf hbuf
    unfold captureWindowModel
    rw [if_neg hne, hfind, hbuf]
    exact ⟨_, rfl⟩

/-- C5 (witness): capturing "Safari" when discovery produced only the
`app_0`-tagged pseudo-window spawns a plain full-screen capture and
succeeds. -/
theorem c5_appid_dispatch_witness :
    ((captureWindowModel "Safari" "png" 100 false
        [{ id := "app_0", title := some "Safari Window", ownerName := some "Safari",
           bounds := none }] testCaptureEnv []).effects.head? =
      some (Effect.spawn (CaptureCmd.screencaptureFull (tempFilePath testCaptureEnv)))) ∧
    ∃ d, (captureWindowModel "Safari" "png" 100 false
        [{ id := "app_0", title := some "Safari Window", ownerName := some "Safari",
           bounds := none }] testCaptureEnv []).result = CaptureResult.success d := by
  have h := c5_appid_dispatch "Safari" "png" 100 false
      [{ id := "app_0", title := some "Safari Window", ownerName := some "Safari",
         bounds := none }] testCaptureEnv []
      { id := "app_0", title := some "Safari Window", ownerName := some "Safari",
        bounds := none }
      (by decide) (by decide)
  exact ⟨h.1.trans (by decide), h.2 (.raw 640 480 0) (by decide)⟩

/-- C6: the in-memory history never exceeds 100 entries; starting from the
empty history, after a 101st capture with pairwise-distinct ids the first
capture's id is no longer retrievable while each of the 100 most recent
still is. -/
theorem c6_history_ring (first : ScreenshotData) (rest : List ScreenshotData)
    (hlen : rest.length = 100)
    (hnd : ((first :: rest).map ScreenshotData.id).Nodup) :
    (∀ pre : List ScreenshotData, (runCaptures pre).length ≤ 100) ∧
    runCaptures (first :: rest) = rest ∧
    getScreenshotById first.id (runCaptures (first :: rest)) = none ∧
    (∀ s ∈ rest, getScreenshotById s.id (runCaptures (first :: rest)) = some s) := by
  have hrestne : rest ≠ [] := by
    intro h
    rw [h] at hlen
    simp at hlen
  have hsplit : rest.dropLast ++ [rest.getLast hrestne] = rest :=
    List.dropLast_append_getLast hrestne
  have hdl : rest.dropLast.length = 99 := by
    rw [List.length_dropLast, hlen]
  have hrun : runCaptures (first :: rest) = rest := by
    have hX : runCaptures (first :: rest.dropLast) = first :: rest.dropLast :=
      runCaptures_fill _ (by simp only [List.length_cons, hdl]; omega)
    have hcons : first :: rest = (first :: rest.dropLast) ++ [rest.getLast hrestne] := by
      rw [List.cons_append, hsplit]
    rw [hcons]
    unfold runCaptures
    rw [List.foldl_append]
    have hXf : List.foldl (fun h s => addToHistory s h) [] (first :: rest.dropLast) =
        first :: rest.dropLast := hX
    rw [hXf]
    show addToHistory (rest.getLast hrestne) (first :: rest.dropLast) = rest
    unfold addToHistory
    rw [if_pos (by simp only [List.length_cons, hdl]; omega)]
    show rest.dropLast ++ [rest.getLast hrestne] = rest
    exact hsplit
  have hnd' : first.id ∉ rest.map ScreenshotData.id ∧ (rest.map ScreenshotData.id).Nodup := by
    rw [List.map_cons, List.nodup_cons] at hnd
    exact hnd
  refine ⟨runCaptures_length_le, hrun, ?_, ?_⟩
  · rw [hrun]
    unfold getScreenshotById
    apply List.find?_eq_none.mpr
    intro s hs
    simp only [beq_iff_eq]
    intro he
    exact hnd'.1 (he ▸ List.mem_map_of_mem ScreenshotData.id hs)
  · intro s hs
    rw [hrun]
    exact find_by_id_of_nodup rest hnd'.2 s hs

/-- C6 (witness): with 101 concrete captures of distinct ids, the ring
holds 100 entries, capture 0's id is gone, and capture 100 is still
retrievable. -/
theorem c6_history_ring_witness :
    (runCaptures ((List.range 101).map mkShot)).length ≤ 100 ∧
    runCaptures (mkShot 0 :: shotsTail) = shotsTail ∧
    getScreenshotById (mkShot 0).id (runCaptures (mkShot 0 :: shotsTail)) = none ∧
    getScreenshotById (mkShot 100).id (runCaptures (mkShot 0 :: shotsTail)) =
      some (mkShot 100) := by
  have h := c6_history_ring (mkShot 0) shotsTail (by decide) (by decide)
  exact ⟨h.1 ((List.range 101).map mkShot), h.2.1, h.2.2.1,
    h.2.2.2 (mkShot 100) (by decide)⟩

/-- C7: a `capture_window` call whose (non-empty) title is not a substring
of any discovered window's title fails with the not-found error message,
spawns no capture process, writes no temporary or output file, and leaves
the history unchanged. -/
theorem c7_window_not_found (windowTitle format : String) (quality : Nat) (saveToFile : Bool)
    (windows : List WindowRecord) (env : CaptureEnv) (hist : List ScreenshotData)
    (hne : windowTitle ≠ "")
    (hnomatch : ∀ w ∈ windows, titleContains w windowTitle = false) :
    captureWindowModel windowTitle format quality saveToFile windows env hist =
      { result := CaptureResult.failure ("Failed to capture window: Window with title \"" ++
          windowTitle ++ "\" not found")
        effects := []
        history := hist } := by
  have hfind : findTargetWindow windows windowTitle = none := by
    unfold findTargetWindow
    apply List.find?_eq_none.mpr
    intro w hw
    cases htw : w.title with
    | none => simp [htw]
    | some t =>
        have ht2 : jsIncludes t windowTitle = false := by
          have h3 := hnomatch w hw
          unfold titleContains at h3
          rw [htw] at h3
          exact h3
        simp [htw, ht2]
  unfold captureWindowModel
  rw [if_neg hne, hfind]

/-- C7 (witness): requesting "Safari" when the only discovered window is
titled "Other" fails with the not-found error, no effects, history
untouched. -/
theorem c7_window_not_found_witness :
    captureWindowModel "Safari" "png" 100 true
      [{ id := "1", title := some "Other", ownerName := some "App", bounds := none }]
      testCaptureEnv [] =
      { result := CaptureResult.failure
          "Failed to capture window: Window with title \"Safari\" not found"
        effects := []
        history := [] } :=
  c7_window_not_found "Safari" "png" 100 true
    [{ id := "1", title := some "Other", ownerName := some "App", bounds := none }]
    testCaptureEnv [] (by decide) (by decide)

/-- C8: a `capture_region` call missing any of x, y, width, height fails
with the validation error before any capture: no process is spawned, no
file written, history unchanged; with all four present the validation
passes and the first effect is the region capture spawn. -/
theorem c8_region_validation (x y w h : Option Int) (format : String) (quality : Nat)
    (saveToFile : Bool) (env : CaptureEnv) (hist : List ScreenshotData) :
    ((x = none ∨ y = none ∨ w = none ∨ h = none) →
      captureRegionModel x y w h format quality saveToFile env hist =
        { result := CaptureResult.failure "Region coordinates (x, y, width, height) are required"
          effects := []
          history := hist }) ∧
    (∀ xv yv wv hv, x = some xv → y = some yv → w = some wv → h = some hv →
      (captureRegionModel x y w h format quality saveToFile env hist).effects.head? =
        some (Effect.spawn (CaptureCmd.screencaptureRegion xv yv wv hv (tempFilePath env)))) := by
  constructor
  · intro hmiss
    cases x <;> cases y <;> cases w <;> cases h <;>
      first
        | rfl
        | (rcases hmiss with hh | hh | hh | hh <;> exact Option.noConfusion hh)
  · intro xv yv wv hv hx hy hw hh
    subst hx
    subst hy
    subst hw
    subst hh
    unfold captureRegionModel
    cases hcr : env.captureResult with
    | none => rfl
    | some buf => rfl

/-- C8 (witness): leaving out x fails with the validation error and no
effects; passing all four coordinates proceeds to spawn the region
capture. -/
theorem c8_region_validation_witness :
    captureRegionModel none (some 1) (some 2) (some 3) "png" 100 true testCaptureEnv [] =
      { result := CaptureResult.failure "Region coordinates (x, y, width, height) are required"
        effects := []
        history := [] } ∧
    (captureRegionModel (some 0) (some 1) (some 2) (some 3) "png" 100 true
        testCaptureEnv []).effects.head? =
      some (Effect.spawn (CaptureCmd.screencaptureRegion 0 1 2 3 (tempFilePath testCaptureEnv))) :=
  ⟨(c8_region_validation none (some 1) (some 2) (some 3) "png" 100 true testCaptureEnv []).1
      (Or.inl rfl),
   (c8_region_validation (some 0) (some 1) (some 2) (some 3) "png" 100 true
      testCaptureEnv []).2 0 1 2 3 rfl rfl rfl rfl⟩

/-- The history written by `captureWindow` is the input history with the
returned screenshot appended exactly when the call succeeded. -/
theorem captureWindow_history (windowTitle format : String) (quality : Nat) (saveToFile : Bool)
    (windows : List WindowRecord) (env : CaptureEnv) (hist : List ScreenshotData) :
    (captureWindowModel windowTitle format quality saveToFile windows env hist).history =
      match (captureWindowModel windowTitle format quality saveToFile windows env hist).result with
      | CaptureResult.success d => addToHistory d hist
      | CaptureResult.failure _ => hist := by
  unfold captureWindowModel
  by_cases ht : windowTitle = ""
  · rw [if_pos ht]
  · rw [if_neg ht]
    cases findTargetWindow windows windowTitle with
    | none => rfl
    | some target =>
        cases env.captureResult with
        | none => rfl
        | some buf => rfl

/-- Looking up a freshly appended screenshot in the history returns it
unchanged (provided its id was not already taken and its backing file, if
any, still exists). -/
theorem screenshotById_after_add (d : ScreenshotData) (hist : List ScreenshotData)
    (fileExists : String → Bool)
    (hfresh : d.id ∉ hist.map ScreenshotData.id) (hid : d.id ≠ "")
    (hfile : ∀ p, d.filePath = some p → fileExists p = true) :
    screenshotByIdResource d.id (addToHistory d hist) fileExists =
      ResourceResult.success d := by
  have hfind : getScreenshotById d.id (addToHistory d hist) = some d := by
    unfold getScreenshotById addToHistory
    have hpre : ∀ s ∈ (if hist.length ≥ 100 then hist.tail else hist),
        (fun t => t.id == d.id) s = false := by
      intro s hs
      have hmem : s ∈ hist := by
        split at hs
        · exact List.tail_subset hist hs
        · exact hs
      have hne : s.id ≠ d.id := by
        intro he
        exact hfresh (he ▸ List.mem_map_of_mem ScreenshotData.id hmem)
      simp [hne]
    rw [find_skip_left _ _ _ hpre]
    rw [List.find?_cons_of_pos _ (by simp)]
  unfold screenshotByIdResource
  rw [if_neg hid, hfind]
  cases hfp : d.filePath with
  | none => simp [hfp]
  | some p => simp [hfp, hfile p hfp]

/-- The history written by `captureFullScreen` is the input history with
the returned screenshot appended exactly when the call succeeded. -/
theorem captureFullScreen_history (format : String) (quality : Nat) (saveToFile : Bool)
    (env : CaptureEnv) (hist : List ScreenshotData) :
    (captureFullScreenModel format quality saveToFile env hist).history =
      match (captureFullScreenModel format quality saveToFile env hist).result with
      | CaptureResult.success d => addToHistory d hist
      | CaptureResult.failure _ => hist := by
  unfold captureFullScreenModel
  cases env.captureResult with
  | none => rfl
  | some buf => rfl

/-- The history written by `captureRegion` is the input history with the
returned screenshot appended exactly when the call succeeded. -/
theorem captureRegion_history (x y w h : Option Int) (format : String) (quality : Nat)
    (saveToFile : Bool) (env : CaptureEnv) (hist : List ScreenshotData) :
    (captureRegionModel x y w h format quality saveToFile env hist).history =
      match (captureRegionModel x y w h format quality saveToFile env hist).result with
      | CaptureResult.success d => addToHistory d hist
      | CaptureResult.failure _ => hist := by
  unfold captureRegionModel
  cases x <;> cases y <;> cases w <;> cases h <;>
    first
      | rfl
      | (cases env.captureResult <;> rfl)

/-- C9: a screenshot returned by any successful capture call — full
screen, window, or region — is, immediately afterwards, retrievable
through the `history/{id}` resource as exactly the same record, in
particular with identical width, height and format, provided its
generated id is fresh and its backing file still exists. -/
theorem c9_roundtrip :
    (∀ (format : String) (quality : Nat) (saveToFile : Bool) (env : CaptureEnv)
        (hist : List ScreenshotData) (d : ScreenshotData) (fileExists : String → Bool),
      (captureFullScreenModel format quality saveToFile env hist).result =
        CaptureResult.success d →
      d.id ∉ hist.map ScreenshotData.id → d.id ≠ "" →
      (∀ p, d.filePath = some p → fileExists p = true) →
      screenshotByIdResource d.id
        (captureFullScreenModel format quality saveToFile env hist).history fileExists =
        ResourceResult.success d) ∧
    (∀ (windowTitle format : String) (quality : Nat) (saveToFile : Bool)
        (windows : List WindowRecord) (env : CaptureEnv) (hist : List ScreenshotData)
        (d : ScreenshotData) (fileExists : String → Bool),
      (captureWindowModel windowTitle format quality saveToFile windows env hist).result =
        CaptureResult.success d →
      d.id ∉ hist.map ScreenshotData.id → d.id ≠ "" →
      (∀ p, d.filePath = some p → fileExists p = true) →
      screenshotByIdResource d.id
        (captureWindowModel windowTitle format quality saveToFile windows env hist).history
        fileExists = ResourceResult.success d) ∧
    (∀ (x y w h : Option Int) (format : String) (quality : Nat) (saveToFile : Bool)
        (env : CaptureEnv) (hist : List ScreenshotData) (d : ScreenshotData)
        (fileExists : String → Bool),
      (captureRegionModel x y w h format quality saveToFile env hist).result =
        CaptureResult.success d →
      d.id ∉ hist.map ScreenshotData.id → d.id ≠ "" →
      (∀ p, d.filePath = some p → fileExists p = true) →
      screenshotByIdResource d.id
        (captureRegionModel x y w h format quality saveToFile env hist).history fileExists =
        ResourceResult.success d) := by
  refine ⟨?_, ?_, ?_⟩
  · intro format quality saveToFile env hist d fileExists hres hfresh hid hfile
    have hh := captureFullScreen_history format quality saveToFile env hist
    rw [hres] at hh
    have hh2 : (captureFullScreenModel format quality saveToFile env hist).history =
        addToHistory d hist := hh
    rw [hh2]
    exact screenshotById_after_add d hist fileExists hfresh hid hfile
  · intro windowTitle format quality saveToFile windows env hist d fileExists hres hfresh hid hfile
    have hh := captureWindow_history windowTitle format quality saveToFile windows env hist
    rw [hres] at hh
    have hh2 : (captureWindowModel windowTitle format quality saveToFile windows env
        hist).history = addToHistory d hist := hh
    rw [hh2]
    exact screenshotById_after_add d hist fileExists hfresh hid hfile
  · intro x y w h format quality saveToFile env hist d fileExists hres hfresh hid hfile
    have hh := captureRegion_history x y w h format quality saveToFile env hist
    rw [hres] at hh
    have hh2 : (captureRegionModel x y w h format quality saveToFile env hist).history =
        addToHistory d hist := hh
    rw [hh2]
    exact screenshotById_after_add d hist fileExists hfresh hid hfile

/-- C9 (witness): after a concrete successful capture on each of the
three paths the resource returns the very record the capture reported. -/
theorem c9_roundtrip_witness :
    screenshotByIdResource "ss_1"
      (captureFullScreenModel "png" 100 false testCaptureEnv []).history (fun _ => true) =
      ResourceResult.success
        { id := "ss_1", timestamp := "2024-01-02T03:04:05.678Z", type := "fullscreen",
          windowTitle := none, windowId := none, region := none,
          format := "png", quality := 100, width := 640, height := 480,
          filePath := none, buffer := (.raw 640 480 0) } ∧
    screenshotByIdResource "ss_1"
      (captureWindowModel "Doc" "png" 100 false
        [{ id := "77", title := some "Doc", ownerName := some "App", bounds := none }]
        testCaptureEnv []).history (fun _ => true) =
      ResourceResult.success
        { id := "ss_1", timestamp := "2024-01-02T03:04:05.678Z", type := "window",
          windowTitle := some "Doc", windowId := some "77", region := none,
          format := "png", quality := 100, width := 640, height := 480,
          filePath := none, buffer := (.raw 640 480 0) } ∧
    screenshotByIdResource "ss_1"
      (captureRegionModel (some 0) (some 1) (some 2) (some 3) "png" 100 false
        testCaptureEnv []).history (fun _ => true) =
      ResourceResult.success
        { id := "ss_1", timestamp := "2024-01-02T03:04:05.678Z", type := "region",
          windowTitle := none, windowId := none, region := some (0, 1, 2, 3),
          format := "png", quality := 100, width := 2, height := 3,
          filePath := none, buffer := (.raw 640 480 0) } :=
  ⟨c9_roundtrip.1 "png" 100 false testCaptureEnv []
    { id := "ss_1", timestamp := "2024-01-02T03:04:05.678Z", type := "fullscreen",
      windowTitle := none, windowId := none, region := none,
      format := "png", quality := 100, width := 640, height := 480,
      filePath := none, buffer := (.raw 640 480 0) }
    (fun _ => true) (by decide) (by decide) (by decide)
    (fun p hp => Option.noConfusion hp),
   c9_roundtrip.2.1 "Doc" "png" 100 false
    [{ id := "77", title := some "Doc", ownerName := some "App", bounds := none }]
    testCaptureEnv []
    { id := "ss_1", timestamp := "2024-01-02T03:04:05.678Z", type := "window",
      windowTitle := some "Doc", windowId := some "77", region := none,
      format := "png", quality := 100, width := 640, height := 480,
      filePath := none, buffer := (.raw 640 480 0) }
    (fun _ => true) (by decide) (by decide) (by decide)
    (fun p hp => Option.noConfusion hp),
   c9_roundtrip.2.2 (some 0) (some 1) (some 2) (some 3) "png" 100 false testCaptureEnv []
    { id := "ss_1", timestamp := "2024-01-02T03:04:05.678Z", type := "region",
      windowTitle := none, windowId := none, region := some (0, 1, 2, 3),
      format := "png", quality := 100, width := 2, height := 3,
      filePath := none, buffer := (.raw 640 480 0) }
    (fun _ => true) (by decide) (by decide) (by decide)
    (fun p hp => Option.noConfusion hp)⟩

/-- C10 (implicit): for each of the three capture paths, requesting format
"png" with quality strictly below 100 re-encodes the returned-and-saved
buffer as JPEG (the quality branch applies the JPEG encoder regardless of
the requested format), while the returned record's `format` field is still
"png" and the saved file's name still ends in ".png". -/
theorem c10_png_low_quality_is_jpeg :
    (∀ (quality : Nat) (saveToFile : Bool) (env : CaptureEnv) (hist : List ScreenshotData)
        (d : ScreenshotData), quality < 100 →
      (captureFullScreenModel "png" quality saveToFile env hist).result =
        CaptureResult.success d →
      d.buffer.isJpegEncoded = true ∧ d.format = "png" ∧
      (saveToFile = true → ∃ stem, d.filePath = some (stem ++ ".png"))) ∧
    (∀ (windowTitle : String) (quality : Nat) (saveToFile : Bool)
        (windows : List WindowRecord) (env : CaptureEnv) (hist : List ScreenshotData)
        (d : ScreenshotData), quality < 100 →
      (captureWindowModel windowTitle "png" quality saveToFile windows env hist).result =
        CaptureResult.success d →
      d.buffer.isJpegEncoded = true ∧ d.format = "png" ∧
      (saveToFile = true → ∃ stem, d.filePath = some (stem ++ ".png"))) ∧
    (∀ (x y w h : Int) (quality : Nat) (saveToFile : Bool) (env : CaptureEnv)
        (hist : List ScreenshotData) (d : ScreenshotData), quality < 100 →
      (captureRegionModel (some x) (some y) (some w) (some h) "png" quality saveToFile
          env hist).result = CaptureResult.success d →
      d.buffer.isJpegEncoded = true ∧ d.format = "png" ∧
      (saveToFile = true → ∃ stem, d.filePath = some (stem ++ ".png"))) := by
  refine ⟨?_, ?_, ?_⟩
  · intro quality saveToFile env hist d hq hres
    unfold captureFullScreenModel at hres
    cases hcr : env.captureResult with
    | none =>
        rw [hcr] at hres
        exact CaptureResult.noConfusion hres
    | some buf =>
        rw [hcr] at hres
        injection hres with hd
        subst hd
        refine ⟨?_, rfl, ?_⟩
        · show (processBuffer "png" quality buf).isJpegEncoded = true
          unfold processBuffer
          rw [if_pos (Or.inr hq)]
          rfl
        · intro hsave
          subst hsave
          exact ⟨(screenshotDir ++ "/") ++ ("fullscreen_" ++ sanitizeTimestamp env.timestamp),
            congrArg some (append_png_ext (screenshotDir ++ "/")
              ("fullscreen_" ++ sanitizeTimestamp env.timestamp))⟩
  · intro windowTitle quality saveToFile windows env hist d hq hres
    unfold captureWindowModel at hres
    by_cases ht : windowTitle = ""
    · rw [if_pos ht] at hres
      exact CaptureResult.noConfusion hres
    · rw [if_neg ht] at hres
      cases hf : findTargetWindow windows windowTitle with
      | none =>
          rw [hf] at hres
          exact CaptureResult.noConfusion hres
      | some target =>
          rw [hf] at hres
          cases hcr : env.captureResult with
          | none =>
              rw [hcr] at hres
              exact CaptureResult.noConfusion hres
          | some buf =>
              rw [hcr] at hres
              injection hres with hd
              subst hd
              refine ⟨?_, rfl, ?_⟩
              · show (processBuffer "png" quality buf).isJpegEncoded = true
                unfold processBuffer
                rw [if_pos (Or.inr hq)]
                rfl
              · intro hsave
                subst hsave
                exact ⟨(screenshotDir ++ "/") ++
                    ((("window_" ++ sanitizeTitle windowTitle) ++ "_") ++
                      sanitizeTimestamp env.timestamp),
                  congrArg some (append_png_ext (screenshotDir ++ "/")
                    ((("window_" ++ sanitizeTitle windowTitle) ++ "_") ++
                      sanitizeTimestamp env.timestamp))⟩
  · intro x y w h quality saveToFile env hist d hq hres
    unfold captureRegionModel at hres
    cases hcr : env.captureResult with
    | none =>
        rw [hcr] at hres
        exact CaptureResult.noConfusion hres
    | some buf =>
        rw [hcr] at hres
        injection hres with hd
        subst hd
        refine ⟨?_, rfl, ?_⟩
        · show (processBuffer "png" quality buf).isJpegEncoded = true
          unfold processBuffer
          rw [if_pos (Or.inr hq)]
          rfl
        · intro hsave
          subst hsave
          exact ⟨(screenshotDir ++ "/") ++
              ((((((((("region_" ++ intRepr x) ++ "_") ++ intRepr y) ++ "_") ++ intRepr w) ++
                "_") ++ intRepr h) ++ "_") ++ sanitizeTimestamp env.timestamp),
            congrArg some (append_png_ext (screenshotDir ++ "/")
              ((((((((("region_" ++ intRepr x) ++ "_") ++ intRepr y) ++ "_") ++ intRepr w) ++
                "_") ++ intRepr h) ++ "_") ++ sanitizeTimestamp env.timestamp))⟩

/-- C10 (witness): concrete quality-50 "png" captures on all three paths
produce JPEG-encoded buffers while reporting format "png" and a ".png"
file name. -/
theorem c10_png_low_quality_is_jpeg_witness :
    ((CaptureEnv.mk 1 "TS" "ss_1" (some (.raw 640 480 0)) "").captureResult.map
        (fun buf => (processBuffer "png" 50 buf).isJpegEncoded) = some true) ∧
    (∃ d, (captureFullScreenModel "png" 50 true testCaptureEnv []).result =
        CaptureResult.success d ∧
      d.buffer.isJpegEncoded = true ∧ d.format = "png" ∧
      (∃ stem, d.filePath = some (stem ++ ".png"))) := by
  constructor
  · decide
  · refine ⟨{ id := "ss_1", timestamp := "2024-01-02T03:04:05.678Z", type := "fullscreen",
              windowTitle := none, windowId := none, region := none, format := "png",
              quality := 50, width := 640, height := 480,
              filePath := some (screenshotDir ++ "/" ++ fullscreenFilename "png"
                "2024-01-02T03:04:05.678Z"),
              buffer := (.jpegOf (.raw 640 480 0) 50) }, rfl, ?_⟩
    have h := (c10_png_low_quality_is_jpeg).1 50 true testCaptureEnv []
      { id := "ss_1", timestamp := "2024-01-02T03:04:05.678Z", type := "fullscreen",
        windowTitle := none, windowId := none, region := none, format := "png",
        quality := 50, width := 640, height := 480,
        filePath := some (screenshotDir ++ "/" ++ fullscreenFilename "png"
          "2024-01-02T03:04:05.678Z"),
        buffer := (.jpegOf (.raw 640 480 0) 50) }
      (by omega) (by decide)
    exact ⟨h.1, h.2.1, h.2.2 rfl⟩
